import Mathlib

/-!
Verification of the retrieval-and-reasoning engine of a RAG chatbot.

The reasoning loop (`backend/ai_generator.py`: `AIGenerator.generate_response`
and `AIGenerator._handle_tool_execution`) is embedded shallowly below.  The
Anthropic client is modelled as a script `Nat → Except String ModelResponse`
giving, for every model call in order, either a response or a raised
exception; the tool manager is modelled as a function from tool name and
keyword arguments to either a result (`Option String`, `none` standing for
Python `None`) or a raised exception.  The loop returns, besides the final
outcome (`Except` distinguishing returning a string from raising), a trace of
the model calls made and the tool calls dispatched, so that the bounded-round
and error-handling properties can be stated.
-/

namespace RagChatbot

/-- A content block of a model response: either a text block or a
`tool_use` block carrying an id, tool name and keyword arguments
(modelled as an association list of string pairs). -/
inductive ContentBlock where
  | textBlock (text : String)
  | toolUseBlock (id : String) (name : String) (input : List (String × String))
  deriving Repr, DecidableEq

/-- A model response: `stop_reason` together with the content blocks. -/
structure ModelResponse where
  stop_reason : String
  content : List ContentBlock
  deriving Repr, DecidableEq

/-- One entry of a tool-results turn, as built by `_handle_tool_execution`:
a dict with keys `type`, `tool_use_id`, `content`. -/
structure ToolResultEntry where
  type : String
  tool_use_id : String
  content : String
  deriving Repr, DecidableEq

/-- Content of a conversation message: the user query (plain text), an
assistant turn holding the model's content blocks, or a user turn holding
tool results. -/
inductive MessageContent where
  | textC (s : String)
  | blocksC (bs : List ContentBlock)
  | resultsC (rs : List ToolResultEntry)
  deriving Repr, DecidableEq

/-- A conversation message: role plus content. -/
structure Message where
  role : String
  content : MessageContent
  deriving Repr, DecidableEq

/-- The tool manager's `execute_tool(name, **kwargs)`: either returns a value
(`none` models Python `None`) or raises (the `Except.error` carries
`str(e)`). -/
abbrev ToolExec : Type := String → List (String × String) → Except String (Option String)

/-- The class constant `AIGenerator.MAX_ROUNDS`. -/
def MAX_ROUNDS : Nat := 2

/-- The loop of `_handle_tool_execution` over `initial_response.content`:
for every `tool_use` block, dispatch `execute_tool(name, **input)`;
a `None` result is replaced by `"No results found."`; an exception is caught,
flips the success flag, and becomes a `"Tool execution failed: <e>"` entry.
Returns the collected `tool_results`, the `execution_success` flag, and the
list of dispatched `(name, input)` calls in order. -/
def toolLoop (tm : ToolExec) :
    List ContentBlock → List ToolResultEntry × Bool × List (String × List (String × String))
  | [] => ([], true, [])
  | ContentBlock.textBlock _ :: rest => toolLoop tm rest
  | ContentBlock.toolUseBlock id name input :: rest =>
    let (rs, succ, calls) := toolLoop tm rest
    match tm name input with
    | Except.ok r =>
      let s := match r with
        | none => "No results found."
        | some s => s
      (⟨"tool_result", id, s⟩ :: rs, succ, (name, input) :: calls)
    | Except.error e =>
      (⟨"tool_result", id, "Tool execution failed: " ++ e⟩ :: rs, false, (name, input) :: calls)

/-- The method `AIGenerator._handle_tool_execution`: copy the current messages, append
the assistant tool-request turn, run all requested tool calls, and append the
collected results as one user turn when any result was produced.  Returns the
updated message list and the success flag. -/
def handleToolExecution (initial_response : ModelResponse) (current_messages : List Message)
    (tm : ToolExec) : List Message × Bool :=
  let messages := current_messages ++ [⟨"assistant", MessageContent.blocksC initial_response.content⟩]
  let (tool_results, execution_success, _) := toolLoop tm initial_response.content
  let messages :=
    if tool_results.isEmpty then messages
    else messages ++ [⟨"user", MessageContent.resultsC tool_results⟩]
  (messages, execution_success)

/-- Python `response.content[0].text`: raises `IndexError` on an empty content
list and `AttributeError` when the first block is a `tool_use` block (those
objects have no `text` attribute). -/
def firstText : List ContentBlock → Except String String
  | [] => Except.error "IndexError: list index out of range"
  | ContentBlock.textBlock t :: _ => Except.ok t
  | ContentBlock.toolUseBlock _ _ _ :: _ =>
    Except.error "AttributeError: ToolUseBlock object has no attribute text"

/-- Record of one model call made by the loop: the (0-based) index of the
call, the round counter at the time of the call, whether tool schemas and the
`tool_choice` policy were attached to the request, and the message history
sent. -/
structure CallRecord where
  callIndex : Nat
  round : Nat
  toolsOffered : Bool
  messages : List Message
  deriving Repr, DecidableEq

/-- Observable outcome of `generate_response`: the result (`Except.error`
models an exception propagating out of the method, `Except.ok` a returned
string), the model calls, the dispatched tool calls in order, and the number
of rounds in which tool execution was attempted. -/
structure GenTrace where
  result : Except String String
  calls : List CallRecord
  toolCalls : List (String × List (String × String))
  toolRounds : Nat
  deriving Repr

/-- Python truthiness of the `tools` argument (`if tools`): `None` and the
empty list are falsy. -/
def toolsTruthy : Option (List String) → Bool
  | none => false
  | some l => !l.isEmpty

/-- The `while True` controller loop of `generate_response`.  `api k` is the
outcome of the `k`-th call to `client.messages.create` (0-based); `tm` is the
`tool_manager` argument; `toolsT` is the truthiness of `tools`.  Tool schemas
are attached only when `tools` is truthy and `current_round ≤ MAX_ROUNDS`.
An exception from the model call is re-raised on round 1 and otherwise turned
into a fixed retry message.  On a tool-requesting response with a tool
manager inside the round budget, tools are executed: on failure a fixed
message is returned, on success the loop continues with the updated messages
and an incremented round counter.  Otherwise the loop returns either the
fixed no-tool-manager message (tool use requested, `tool_manager` is `None`)
or `response.content[0].text`. -/
def genLoop (api : Nat → Except String ModelResponse) (tm : Option ToolExec) (toolsT : Bool)
    (messages : List Message) (current_round callIdx : Nat) : GenTrace :=
  let toolsOffered := toolsT && decide (current_round ≤ MAX_ROUNDS)
  let rec0 : CallRecord := ⟨callIdx, current_round, toolsOffered, messages⟩
  match api callIdx with
  | Except.error e =>
    { result := if current_round = 1 then Except.error e
        else Except.ok "I encountered an error while processing your request. Please try again.",
      calls := [rec0], toolCalls := [], toolRounds := 0 }
  | Except.ok response =>
    match tm with
    | some f =>
      if h : response.stop_reason = "tool_use" ∧ current_round ≤ MAX_ROUNDS then
        let hte := handleToolExecution response messages f
        let dispatched := (toolLoop f response.content).2.2
        if hte.2 then
          let rest := genLoop api (some f) toolsT hte.1 (current_round + 1) (callIdx + 1)
          { result := rest.result, calls := rec0 :: rest.calls,
            toolCalls := dispatched ++ rest.toolCalls, toolRounds := rest.toolRounds + 1 }
        else
          { result := Except.ok "I encountered an issue while searching for information.",
            calls := [rec0], toolCalls := dispatched, toolRounds := 1 }
      else
        { result := firstText response.content, calls := [rec0], toolCalls := [], toolRounds := 0 }
    | none =>
      if response.stop_reason = "tool_use" then
        { result := Except.ok "I need to search for information to answer your question, but search functionality is not available.",
          calls := [rec0], toolCalls := [], toolRounds := 0 }
      else
        { result := firstText response.content, calls := [rec0], toolCalls := [], toolRounds := 0 }
termination_by MAX_ROUNDS + 1 - current_round
decreasing_by
  simp_wf
  omega

/-- The method `AIGenerator.generate_response`: the message history starts with the user
query, the round counter at 1, and the loop runs.  (`conversation_history`
only affects the system prompt string, which no observed property depends
on.) -/
def generate_response (api : Nat → Except String ModelResponse) (query : String)
    (tools : Option (List String)) (tool_manager : Option ToolExec) : GenTrace :=
  genLoop api tool_manager (toolsTruthy tools) [⟨"user", MessageContent.textC query⟩] 1 0

/-! ### Characterisations of the tool-execution helper -/

/-- The `(id, (name, input))` data of the `tool_use` blocks of a content
list, in order. -/
def toolUses (bs : List ContentBlock) : List (String × String × List (String × String)) :=
  bs.filterMap fun b =>
    match b with
    | ContentBlock.textBlock _ => none
    | ContentBlock.toolUseBlock id name input => some (id, name, input)

/-- The `content` string of the tool-result entry produced for one dispatched
call, as a function of the outcome of `execute_tool`. -/
def resultContent : Except String (Option String) → String
  | Except.ok none => "No results found."
  | Except.ok (some s) => s
  | Except.error e => "Tool execution failed: " ++ e

/-- Whether one dispatched call completed without raising. -/
def execOk : Except String (Option String) → Bool
  | Except.ok _ => true
  | Except.error _ => false

/-- The loop of `_handle_tool_execution` produces one tool-result entry per
requested call in request order, each tagged with the originating call's id
and carrying `resultContent`; the success flag is the conjunction of
per-call success; the dispatch trace is exactly the requested `(name, input)`
pairs in order. -/
theorem toolLoop_spec (tm : ToolExec) (bs : List ContentBlock) :
    toolLoop tm bs =
      ((toolUses bs).map fun t => ⟨"tool_result", t.1, resultContent (tm t.2.1 t.2.2)⟩,
       (toolUses bs).all fun t => execOk (tm t.2.1 t.2.2),
       (toolUses bs).map fun t => t.2) := by
  induction bs with
  | nil => rfl
  | cons b rest ih =>
    cases b with
    | textBlock t => simpa [toolLoop, toolUses] using ih
    | toolUseBlock id name input =>
      simp only [toolLoop, toolUses, List.filterMap_cons, ih]
      cases h : tm name input with
      | ok r => cases r <;> simp [toolUses, resultContent, execOk, h]
      | error e => simp [toolUses, resultContent, execOk, h]

/-- Closed form of `_handle_tool_execution`: the returned message list is the
input list, the assistant tool-request turn, and (when at least one result
was collected) a single user turn with all tool results; the flag is the
per-call success conjunction. -/
theorem handleToolExecution_spec (resp : ModelResponse) (msgs : List Message) (tm : ToolExec) :
    handleToolExecution resp msgs tm =
      (msgs ++ [⟨"assistant", MessageContent.blocksC resp.content⟩] ++
        (if toolUses resp.content = [] then []
         else [⟨"user", MessageContent.resultsC
            ((toolUses resp.content).map fun t =>
              ⟨"tool_result", t.1, resultContent (tm t.2.1 t.2.2)⟩)⟩]),
       (toolUses resp.content).all fun t => execOk (tm t.2.1 t.2.2)) := by
  unfold handleToolExecution
  rw [toolLoop_spec]
  rcases h : toolUses resp.content with _ | ⟨t, ts⟩ <;> simp [h]

/-! ### One-step unfolding lemmas for the controller loop -/

/-- Fixed message returned when a model call raises after round 1. -/
def retryMsg : String :=
  "I encountered an error while processing your request. Please try again."

/-- Fixed message returned when tool execution reported failure. -/
def searchIssueMsg : String := "I encountered an issue while searching for information."

/-- Fixed message returned when the model requests tools but no tool manager
is configured. -/
def noToolManagerMsg : String :=
  "I need to search for information to answer your question, but search functionality is not available."

theorem genLoop_api_error (api : Nat → Except String ModelResponse) (tm : Option ToolExec)
    (toolsT : Bool) (msgs : List Message) (r k : Nat) (e : String)
    (h0 : api k = Except.error e) :
    genLoop api tm toolsT msgs r k =
      ⟨if r = 1 then Except.error e else Except.ok retryMsg,
       [⟨k, r, toolsT && decide (r ≤ MAX_ROUNDS), msgs⟩], [], 0⟩ := by
  rw [genLoop, h0]
  rfl

theorem genLoop_tool_round (api : Nat → Except String ModelResponse) (f : ToolExec)
    (toolsT : Bool) (msgs : List Message) (r k : Nat) (resp : ModelResponse)
    (h0 : api k = Except.ok resp) (hs : resp.stop_reason = "tool_use") (hr : r ≤ MAX_ROUNDS)
    (hok : (toolLoop f resp.content).2.1 = true) :
    genLoop api (some f) toolsT msgs r k =
      (let rest := genLoop api (some f) toolsT
          (handleToolExecution resp msgs f).1 (r + 1) (k + 1)
       ⟨rest.result, ⟨k, r, toolsT && decide (r ≤ MAX_ROUNDS), msgs⟩ :: rest.calls,
        (toolLoop f resp.content).2.2 ++ rest.toolCalls, rest.toolRounds + 1⟩) := by
  rw [genLoop, h0]
  have hcond : resp.stop_reason = "tool_use" ∧ r ≤ MAX_ROUNDS := ⟨hs, hr⟩
  dsimp only
  rw [dif_pos hcond]
  have hflag : (handleToolExecution resp msgs f).2 = true := by
    unfold handleToolExecution
    rcases htl : toolLoop f resp.content with ⟨a, b, c⟩
    rw [htl] at hok
    simpa using hok
  simp only [hflag, if_true]

theorem genLoop_tool_failure (api : Nat → Except String ModelResponse) (f : ToolExec)
    (toolsT : Bool) (msgs : List Message) (r k : Nat) (resp : ModelResponse)
    (h0 : api k = Except.ok resp) (hs : resp.stop_reason = "tool_use") (hr : r ≤ MAX_ROUNDS)
    (hbad : (toolLoop f resp.content).2.1 = false) :
    genLoop api (some f) toolsT msgs r k =
      ⟨Except.ok searchIssueMsg, [⟨k, r, toolsT && decide (r ≤ MAX_ROUNDS), msgs⟩],
       (toolLoop f resp.content).2.2, 1⟩ := by
  rw [genLoop, h0]
  have hcond : resp.stop_reason = "tool_use" ∧ r ≤ MAX_ROUNDS := ⟨hs, hr⟩
  dsimp only
  rw [dif_pos hcond]
  have hflag : (handleToolExecution resp msgs f).2 = false := by
    unfold handleToolExecution
    rcases htl : toolLoop f resp.content with ⟨a, b, c⟩
    rw [htl] at hbad
    simpa using hbad
  simp only [hflag, if_false, Bool.false_eq_true, searchIssueMsg]

theorem genLoop_final_some (api : Nat → Except String ModelResponse) (f : ToolExec)
    (toolsT : Bool) (msgs : List Message) (r k : Nat) (resp : ModelResponse)
    (h0 : api k = Except.ok resp) (h : ¬(resp.stop_reason = "tool_use" ∧ r ≤ MAX_ROUNDS)) :
    genLoop api (some f) toolsT msgs r k =
      ⟨firstText resp.content, [⟨k, r, toolsT && decide (r ≤ MAX_ROUNDS), msgs⟩], [], 0⟩ := by
  rw [genLoop, h0]
  dsimp only
  rw [dif_neg h]

theorem genLoop_no_manager (api : Nat → Except String ModelResponse)
    (toolsT : Bool) (msgs : List Message) (r k : Nat) (resp : ModelResponse)
    (h0 : api k = Except.ok resp) :
    genLoop api none toolsT msgs r k =
      ⟨if resp.stop_reason = "tool_use" then Except.ok noToolManagerMsg
        else firstText resp.content,
       [⟨k, r, toolsT && decide (r ≤ MAX_ROUNDS), msgs⟩], [], 0⟩ := by
  rw [genLoop, h0]
  by_cases hs : resp.stop_reason = "tool_use" <;> simp [hs, noToolManagerMsg]

/-! ### Round-bound invariants of the controller loop -/

theorem genLoop_calls_length (api : Nat → Except String ModelResponse) (tm : Option ToolExec)
    (toolsT : Bool) :
    ∀ (n : Nat) (msgs : List Message) (r k : Nat),
      MAX_ROUNDS + 1 - r ≤ n → r ≤ MAX_ROUNDS + 1 →
      (genLoop api tm toolsT msgs r k).calls.length ≤ MAX_ROUNDS + 2 - r := by
  intro n
  induction n with
  | zero =>
    intro msgs r k hn hr
    cases hapi : api k with
    | error e =>
      rw [genLoop_api_error api tm toolsT msgs r k e hapi]
      simp
      omega
    | ok resp =>
      cases tm with
      | none =>
        rw [genLoop_no_manager api toolsT msgs r k resp hapi]
        simp
        omega
      | some f =>
        have hcond : ¬(resp.stop_reason = "tool_use" ∧ r ≤ MAX_ROUNDS) := by
          rintro ⟨-, hle⟩
          omega
        rw [genLoop_final_some api f toolsT msgs r k resp hapi hcond]
        simp
        omega
  | succ n ih =>
    intro msgs r k hn hr
    cases hapi : api k with
    | error e =>
      rw [genLoop_api_error api tm toolsT msgs r k e hapi]
      simp
      omega
    | ok resp =>
      cases tm with
      | none =>
        rw [genLoop_no_manager api toolsT msgs r k resp hapi]
        simp
        omega
      | some f =>
        by_cases hcond : resp.stop_reason = "tool_use" ∧ r ≤ MAX_ROUNDS
        · cases hflag : (toolLoop f resp.content).2.1 with
          | false =>
            rw [genLoop_tool_failure api f toolsT msgs r k resp hapi hcond.1 hcond.2 hflag]
            simp
            omega
          | true =>
            rw [genLoop_tool_round api f toolsT msgs r k resp hapi hcond.1 hcond.2 hflag]
            have hrec := ih (handleToolExecution resp msgs f).1 (r + 1) (k + 1)
              (by omega) (by omega)
            simp only [List.length_cons]
            omega
        · rw [genLoop_final_some api f toolsT msgs r k resp hapi hcond]
          simp
          omega

theorem genLoop_toolRounds (api : Nat → Except String ModelResponse) (tm : Option ToolExec)
    (toolsT : Bool) :
    ∀ (n : Nat) (msgs : List Message) (r k : Nat),
      MAX_ROUNDS + 1 - r ≤ n →
      (genLoop api tm toolsT msgs r k).toolRounds ≤ MAX_ROUNDS + 1 - r := by
  intro n
  induction n with
  | zero =>
    intro msgs r k hn
    cases hapi : api k with
    | error e =>
      rw [genLoop_api_error api tm toolsT msgs r k e hapi]
      simp
    | ok resp =>
      cases tm with
      | none =>
        rw [genLoop_no_manager api toolsT msgs r k resp hapi]
        simp
      | some f =>
        have hcond : ¬(resp.stop_reason = "tool_use" ∧ r ≤ MAX_ROUNDS) := by
          rintro ⟨-, hle⟩
          omega
        rw [genLoop_final_some api f toolsT msgs r k resp hapi hcond]
        simp
  | succ n ih =>
    intro msgs r k hn
    cases hapi : api k with
    | error e =>
      rw [genLoop_api_error api tm toolsT msgs r k e hapi]
      simp
    | ok resp =>
      cases tm with
      | none =>
        rw [genLoop_no_manager api toolsT msgs r k resp hapi]
        simp
      | some f =>
        by_cases hcond : resp.stop_reason = "tool_use" ∧ r ≤ MAX_ROUNDS
        · cases hflag : (toolLoop f resp.content).2.1 with
          | false =>
            rw [genLoop_tool_failure api f toolsT msgs r k resp hapi hcond.1 hcond.2 hflag]
            simp
            omega
          | true =>
            rw [genLoop_tool_round api f toolsT msgs r k resp hapi hcond.1 hcond.2 hflag]
            have hrec := ih (handleToolExecution resp msgs f).1 (r + 1) (k + 1) (by omega)
            simp only []
            omega
        · rw [genLoop_final_some api f toolsT msgs r k resp hapi hcond]
          simp

theorem genLoop_calls_mem (api : Nat → Except String ModelResponse) (tm : Option ToolExec)
    (toolsT : Bool) :
    ∀ (n : Nat) (msgs : List Message) (r k : Nat),
      MAX_ROUNDS + 1 - r ≤ n →
      ∀ c ∈ (genLoop api tm toolsT msgs r k).calls,
        c.toolsOffered = (toolsT && decide (c.round ≤ MAX_ROUNDS)) ∧
          c.round + k = c.callIndex + r := by
  intro n
  induction n with
  | zero =>
    intro msgs r k hn c hc
    cases hapi : api k with
    | error e =>
      rw [genLoop_api_error api tm toolsT msgs r k e hapi] at hc
      simp at hc
      subst hc
      exact ⟨rfl, Nat.add_comm r k⟩
    | ok resp =>
      cases tm with
      | none =>
        rw [genLoop_no_manager api toolsT msgs r k resp hapi] at hc
        simp at hc
        subst hc
        exact ⟨rfl, Nat.add_comm r k⟩
      | some f =>
        have hcond : ¬(resp.stop_reason = "tool_use" ∧ r ≤ MAX_ROUNDS) := by
          rintro ⟨-, hle⟩
          omega
        rw [genLoop_final_some api f toolsT msgs r k resp hapi hcond] at hc
        simp at hc
        subst hc
        exact ⟨rfl, Nat.add_comm r k⟩
  | succ n ih =>
    intro msgs r k hn c hc
    cases hapi : api k with
    | error e =>
      rw [genLoop_api_error api tm toolsT msgs r k e hapi] at hc
      simp at hc
      subst hc
      exact ⟨rfl, Nat.add_comm r k⟩
    | ok resp =>
      cases tm with
      | none =>
        rw [genLoop_no_manager api toolsT msgs r k resp hapi] at hc
        simp at hc
        subst hc
        exact ⟨rfl, Nat.add_comm r k⟩
      | some f =>
        by_cases hcond : resp.stop_reason = "tool_use" ∧ r ≤ MAX_ROUNDS
        · cases hflag : (toolLoop f resp.content).2.1 with
          | false =>
            rw [genLoop_tool_failure api f toolsT msgs r k resp hapi hcond.1 hcond.2 hflag] at hc
            simp at hc
            subst hc
            exact ⟨rfl, Nat.add_comm r k⟩
          | true =>
            rw [genLoop_tool_round api f toolsT msgs r k resp hapi hcond.1 hcond.2 hflag] at hc
            simp only [List.mem_cons] at hc
            rcases hc with hc | hc
            · subst hc
              exact ⟨rfl, Nat.add_comm r k⟩
            · have := ih (handleToolExecution resp msgs f).1 (r + 1) (k + 1) (by omega) c hc
              exact ⟨this.1, by omega⟩
        · rw [genLoop_final_some api f toolsT msgs r k resp hapi hcond] at hc
          simp at hc
          subst hc
          exact ⟨rfl, Nat.add_comm r k⟩

/-! ### Claim C1: bounded tool-enabled rounds -/

/-- C1: `generate_response` executes at most `MAX_ROUNDS = 2` tool-enabled
rounds.  Over any model-response script: at most `MAX_ROUNDS + 1 = 3` model
calls are made; tool execution is attempted in at most `MAX_ROUNDS` rounds;
tool schemas are attached to a model call only when the `tools` argument is
truthy and the call's round is at most `MAX_ROUNDS`; and when the model
requests a tool call in every response (with tools executing successfully),
exactly 3 model calls are made, exactly 2 tool rounds run, the final call
carries no tool offers, and the text of the final response is returned. -/
theorem claim_C1 :
    (∀ api q tools tm, (generate_response api q tools tm).calls.length ≤ MAX_ROUNDS + 1) ∧
    (∀ api q tools tm, (generate_response api q tools tm).toolRounds ≤ MAX_ROUNDS) ∧
    (∀ api q tools tm c, c ∈ (generate_response api q tools tm).calls →
      c.toolsOffered = true → toolsTruthy tools = true ∧ c.round ≤ MAX_ROUNDS) ∧
    (∀ api q tools f r0 r1 r2 t rest,
      api 0 = Except.ok r0 → r0.stop_reason = "tool_use" →
        (toolLoop f r0.content).2.1 = true →
      api 1 = Except.ok r1 → r1.stop_reason = "tool_use" →
        (toolLoop f r1.content).2.1 = true →
      api 2 = Except.ok r2 → r2.stop_reason = "tool_use" →
        r2.content = ContentBlock.textBlock t :: rest →
      (generate_response api q tools (some f)).calls.length = MAX_ROUNDS + 1 ∧
      (generate_response api q tools (some f)).toolRounds = MAX_ROUNDS ∧
      ((generate_response api q tools (some f)).calls.map CallRecord.toolsOffered).getLast? =
        some false ∧
      (generate_response api q tools (some f)).result = Except.ok t) := by
  refine ⟨?_, ?_, ?_, ?_⟩
  · intro api q tools tm
    have h := genLoop_calls_length api tm (toolsTruthy tools) MAX_ROUNDS
      [⟨"user", MessageContent.textC q⟩] 1 0 (by omega) (by omega)
    unfold generate_response
    omega
  · intro api q tools tm
    have h := genLoop_toolRounds api tm (toolsTruthy tools) MAX_ROUNDS
      [⟨"user", MessageContent.textC q⟩] 1 0 (by omega)
    unfold generate_response
    omega
  · intro api q tools tm c hc hoff
    unfold generate_response at hc
    have h := (genLoop_calls_mem api tm (toolsTruthy tools) MAX_ROUNDS
      [⟨"user", MessageContent.textC q⟩] 1 0 (by omega) c hc).1
    rw [hoff] at h
    have h' := h.symm
    simp only [Bool.and_eq_true, decide_eq_true_eq] at h'
    exact h'
  · intro api q tools f r0 r1 r2 t rest h0 hs0 hok0 h1 hs1 hok1 h2 hs2 hc2
    unfold generate_response
    rw [genLoop_tool_round api f (toolsTruthy tools) _ 1 0 r0 h0 hs0 (by decide) hok0]
    dsimp only
    rw [genLoop_tool_round api f (toolsTruthy tools) _ 2 1 r1 h1 hs1 (by decide) hok1]
    dsimp only
    rw [genLoop_final_some api f (toolsTruthy tools) _ 3 2 r2 h2
      (by rintro ⟨-, hle⟩; revert hle; decide)]
    refine ⟨rfl, rfl, by simp [MAX_ROUNDS], ?_⟩
    rw [hc2]
    rfl

/-- Script used by the witnesses: the model requests one tool call in every
response, except that the third response carries a leading text block. -/
def wApiAllTools : Nat → Except String ModelResponse
  | 0 => Except.ok ⟨"tool_use", [ContentBlock.toolUseBlock "id0" "search_course_content"
      [("query", "python")]]⟩
  | 1 => Except.ok ⟨"tool_use", [ContentBlock.toolUseBlock "id1" "search_course_content"
      [("query", "lesson 4")]]⟩
  | 2 => Except.ok ⟨"tool_use", [ContentBlock.textBlock "Let me search again.",
      ContentBlock.toolUseBlock "id2" "search_course_content" [("query", "more")]]⟩
  | _ + 3 => Except.error "StopIteration"

/-- A tool manager whose every call succeeds with a fixed result. -/
def wOkTool : ToolExec := fun _ _ => Except.ok (some "Tool result")

/-- C1 witness: the bounds and the forced-final-round behaviour, evaluated on
the concrete always-tool-requesting script. -/
theorem claim_C1_witness :
    (generate_response wApiAllTools "q" (some ["search_course_content"]) (some wOkTool)).calls.length
        ≤ MAX_ROUNDS + 1 ∧
    (generate_response wApiAllTools "q" (some ["search_course_content"]) (some wOkTool)).toolRounds
        ≤ MAX_ROUNDS ∧
    (toolsTruthy (some ["search_course_content"]) = true ∧
      (⟨0, 1, true, [⟨"user", MessageContent.textC "q"⟩]⟩ : CallRecord).round ≤ MAX_ROUNDS) ∧
    ((generate_response wApiAllTools "q" (some ["search_course_content"]) (some wOkTool)).calls.length
        = MAX_ROUNDS + 1 ∧
      (generate_response wApiAllTools "q" (some ["search_course_content"]) (some wOkTool)).toolRounds
        = MAX_ROUNDS ∧
      ((generate_response wApiAllTools "q" (some ["search_course_content"]) (some wOkTool)).calls.map
          CallRecord.toolsOffered).getLast? = some false ∧
      (generate_response wApiAllTools "q" (some ["search_course_content"]) (some wOkTool)).result =
        Except.ok "Let me search again.") := by
  refine ⟨claim_C1.1 wApiAllTools "q" _ _, claim_C1.2.1 wApiAllTools "q" _ _, ?_, ?_⟩
  · refine claim_C1.2.2.1 wApiAllTools "q" (some ["search_course_content"]) (some wOkTool)
      ⟨0, 1, true, [⟨"user", MessageContent.textC "q"⟩]⟩ ?_ rfl
    simp [generate_response, genLoop, wApiAllTools, wOkTool, handleToolExecution, toolLoop,
      MAX_ROUNDS, toolsTruthy]
  · exact claim_C1.2.2.2 wApiAllTools "q" (some ["search_course_content"]) wOkTool
      ⟨"tool_use", [ContentBlock.toolUseBlock "id0" "search_course_content" [("query", "python")]]⟩
      ⟨"tool_use", [ContentBlock.toolUseBlock "id1" "search_course_content" [("query", "lesson 4")]]⟩
      ⟨"tool_use", [ContentBlock.textBlock "Let me search again.",
        ContentBlock.toolUseBlock "id2" "search_course_content" [("query", "more")]]⟩
      "Let me search again." [ContentBlock.toolUseBlock "id2" "search_course_content"
        [("query", "more")]]
      rfl rfl (by decide) rfl rfl (by decide) rfl rfl rfl

/-! ### Claim C3: model-call failure handling -/

/-- C3: a model-call exception on round 1 propagates to the caller; a
model-call exception on any later round (the round-2 call after one
successful tool round, or the round-3 call after two) is absorbed and the
fixed retry string is returned instead. -/
theorem claim_C3 :
    (∀ api q tools tm e, api 0 = Except.error e →
      (generate_response api q tools tm).result = Except.error e) ∧
    (∀ api q tools f r0 e,
      api 0 = Except.ok r0 → r0.stop_reason = "tool_use" →
        (toolLoop f r0.content).2.1 = true →
      api 1 = Except.error e →
      (generate_response api q tools (some f)).result =
        Except.ok "I encountered an error while processing your request. Please try again.") ∧
    (∀ api q tools f r0 r1 e,
      api 0 = Except.ok r0 → r0.stop_reason = "tool_use" →
        (toolLoop f r0.content).2.1 = true →
      api 1 = Except.ok r1 → r1.stop_reason = "tool_use" →
        (toolLoop f r1.content).2.1 = true →
      api 2 = Except.error e →
      (generate_response api q tools (some f)).result =
        Except.ok "I encountered an error while processing your request. Please try again.") := by
  refine ⟨?_, ?_, ?_⟩
  · intro api q tools tm e h0
    unfold generate_response
    rw [genLoop_api_error api tm (toolsTruthy tools) _ 1 0 e h0]
    rfl
  · intro api q tools f r0 e h0 hs0 hok0 h1
    unfold generate_response
    rw [genLoop_tool_round api f (toolsTruthy tools) _ 1 0 r0 h0 hs0 (by decide) hok0]
    dsimp only
    rw [genLoop_api_error api (some f) (toolsTruthy tools) _ 2 1 e h1]
    rfl
  · intro api q tools f r0 r1 e h0 hs0 hok0 h1 hs1 hok1 h2
    unfold generate_response
    rw [genLoop_tool_round api f (toolsTruthy tools) _ 1 0 r0 h0 hs0 (by decide) hok0]
    dsimp only
    rw [genLoop_tool_round api f (toolsTruthy tools) _ 2 1 r1 h1 hs1 (by decide) hok1]
    dsimp only
    rw [genLoop_api_error api (some f) (toolsTruthy tools) _ 3 2 e h2]
    rfl

/-- Script raising on the very first model call. -/
def wApiFail0 : Nat → Except String ModelResponse := fun _ => Except.error "API Error"

/-- Script with one tool-requesting response, then an exception. -/
def wApiFail1 : Nat → Except String ModelResponse
  | 0 => Except.ok ⟨"tool_use", [ContentBlock.toolUseBlock "id0" "search_course_content"
      [("query", "python")]]⟩
  | _ + 1 => Except.error "API Error"

/-- Script with two tool-requesting responses, then an exception. -/
def wApiFail2 : Nat → Except String ModelResponse
  | 0 => Except.ok ⟨"tool_use", [ContentBlock.toolUseBlock "id0" "search_course_content"
      [("query", "python")]]⟩
  | 1 => Except.ok ⟨"tool_use", [ContentBlock.toolUseBlock "id1" "search_course_content"
      [("query", "lesson 4")]]⟩
  | _ + 2 => Except.error "API Error"

/-- C3 witness: round-1 failure propagates; round-2 and round-3 failures are
absorbed into the fixed retry string, on concrete scripts. -/
theorem claim_C3_witness :
    (generate_response wApiFail0 "q" (some ["t"]) (some wOkTool)).result =
        Except.error "API Error" ∧
    (generate_response wApiFail1 "q" (some ["t"]) (some wOkTool)).result =
        Except.ok "I encountered an error while processing your request. Please try again." ∧
    (generate_response wApiFail2 "q" (some ["t"]) (some wOkTool)).result =
        Except.ok "I encountered an error while processing your request. Please try again." := by
  refine ⟨claim_C3.1 wApiFail0 "q" (some ["t"]) (some wOkTool) "API Error" rfl, ?_, ?_⟩
  · exact claim_C3.2.1 wApiFail1 "q" (some ["t"]) wOkTool
      ⟨"tool_use", [ContentBlock.toolUseBlock "id0" "search_course_content"
        [("query", "python")]]⟩ "API Error" rfl rfl (by decide) rfl
  · exact claim_C3.2.2 wApiFail2 "q" (some ["t"]) wOkTool
      ⟨"tool_use", [ContentBlock.toolUseBlock "id0" "search_course_content"
        [("query", "python")]]⟩
      ⟨"tool_use", [ContentBlock.toolUseBlock "id1" "search_course_content"
        [("query", "lesson 4")]]⟩ "API Error" rfl rfl (by decide) rfl rfl (by decide) rfl

/-! ### Claim C2: unexecuted tool requests -/

/-- C2 counterexample: on the forced tool-less round after the budget is
spent, with a tool manager configured, a response that still requests a tool
call is not intercepted: `generate_response` answers with the model's own
leading text block (raw content of the tool-requesting response), which is
not a fixed explanatory message. -/
theorem claim_C2_counterexample :
    (generate_response wApiAllTools "q" (some ["search_course_content"]) (some wOkTool)).result =
        Except.ok "Let me search again." ∧
    "Let me search again." ≠ noToolManagerMsg ∧
    "Let me search again." ≠ searchIssueMsg ∧
    "Let me search again." ≠ retryMsg := by
  refine ⟨?_, by decide, by decide, by decide⟩
  simp [generate_response, genLoop, wApiAllTools, wOkTool, handleToolExecution, toolLoop,
    MAX_ROUNDS, toolsTruthy, firstText]

/-- C2 (amended): when the model requests tool calls and no tool-execution
collaborator is configured, `generate_response` returns the fixed
explanatory message and not the model's content; but on the forced tool-less
round after the round budget is spent, with a tool manager configured, a
tool-requesting response is returned via `response.content[0].text` (its raw
leading text, an exception if the first block is a tool-use block) rather
than via a fixed message. -/
theorem claim_C2 :
    (∀ api q tools r0, api 0 = Except.ok r0 → r0.stop_reason = "tool_use" →
      (generate_response api q tools none).result = Except.ok noToolManagerMsg) ∧
    (∀ api q tools f r0 r1 r2,
      api 0 = Except.ok r0 → r0.stop_reason = "tool_use" →
        (toolLoop f r0.content).2.1 = true →
      api 1 = Except.ok r1 → r1.stop_reason = "tool_use" →
        (toolLoop f r1.content).2.1 = true →
      api 2 = Except.ok r2 → r2.stop_reason = "tool_use" →
      (generate_response api q tools (some f)).result = firstText r2.content) := by
  constructor
  · intro api q tools r0 h0 hs0
    unfold generate_response
    rw [genLoop_no_manager api (toolsTruthy tools) _ 1 0 r0 h0]
    simp [hs0]
  · intro api q tools f r0 r1 r2 h0 hs0 hok0 h1 hs1 hok1 h2 hs2
    unfold generate_response
    rw [genLoop_tool_round api f (toolsTruthy tools) _ 1 0 r0 h0 hs0 (by decide) hok0]
    dsimp only
    rw [genLoop_tool_round api f (toolsTruthy tools) _ 2 1 r1 h1 hs1 (by decide) hok1]
    dsimp only
    rw [genLoop_final_some api f (toolsTruthy tools) _ 3 2 r2 h2
      (by rintro ⟨-, hle⟩; revert hle; decide)]

/-- C2 witness: the fixed message with no tool manager, and the raw leading
text on the forced tool-less round, on the concrete always-tool-requesting
script. -/
theorem claim_C2_witness :
    (generate_response wApiAllTools "q" (some ["search_course_content"]) none).result =
        Except.ok noToolManagerMsg ∧
    (generate_response wApiAllTools "q" (some ["search_course_content"]) (some wOkTool)).result =
        firstText [ContentBlock.textBlock "Let me search again.",
          ContentBlock.toolUseBlock "id2" "search_course_content" [("query", "more")]] := by
  constructor
  · exact claim_C2.1 wApiAllTools "q" (some ["search_course_content"])
      ⟨"tool_use", [ContentBlock.toolUseBlock "id0" "search_course_content"
        [("query", "python")]]⟩ rfl rfl
  · exact claim_C2.2 wApiAllTools "q" (some ["search_course_content"]) wOkTool
      ⟨"tool_use", [ContentBlock.toolUseBlock "id0" "search_course_content"
        [("query", "python")]]⟩
      ⟨"tool_use", [ContentBlock.toolUseBlock "id1" "search_course_content"
        [("query", "lesson 4")]]⟩
      ⟨"tool_use", [ContentBlock.textBlock "Let me search again.",
        ContentBlock.toolUseBlock "id2" "search_course_content" [("query", "more")]]⟩
      rfl rfl (by decide) rfl rfl (by decide) rfl rfl

/-! ### Claim C4: tool dispatch and result assembly -/

/-- C4: for a response containing tool-use blocks,
`_handle_tool_execution` appends the assistant tool-request turn and exactly
one user turn holding one `tool_result` entry per requested call, tagged with
the originating call id, in request order; the dispatch trace is exactly the
requested `(name, input)` pairs in order; and a `None` tool result is
normalized to `"No results found."`. -/
theorem claim_C4 :
    (∀ (tm : ToolExec) (resp : ModelResponse) (msgs : List Message),
      toolUses resp.content ≠ [] →
      handleToolExecution resp msgs tm =
        (msgs ++ [⟨"assistant", MessageContent.blocksC resp.content⟩,
          ⟨"user", MessageContent.resultsC ((toolUses resp.content).map fun t =>
            ⟨"tool_result", t.1, resultContent (tm t.2.1 t.2.2)⟩)⟩],
         (toolUses resp.content).all fun t => execOk (tm t.2.1 t.2.2))) ∧
    (∀ (tm : ToolExec) (bs : List ContentBlock),
      (toolLoop tm bs).2.2 = (toolUses bs).map fun t => t.2) ∧
    resultContent (Except.ok none) = "No results found." := by
  refine ⟨?_, ?_, rfl⟩
  · intro tm resp msgs hne
    rw [handleToolExecution_spec]
    rw [if_neg hne]
    simp
  · intro tm bs
    rw [toolLoop_spec]

/-- Response used by the C4 and C10 witnesses: two requested tool calls. -/
def wTwoToolResp : ModelResponse :=
  ⟨"tool_use", [ContentBlock.toolUseBlock "tool_id_1" "search_tool" [("query", "Python")],
    ContentBlock.toolUseBlock "tool_id_2" "outline_tool" [("course_name", "Python")]]⟩

/-- Tool manager used by the C4 witness: the search tool returns a string,
the outline tool returns `None`. -/
def wMixedTool : ToolExec := fun name _ =>
  if name = "search_tool" then Except.ok (some "Search results") else Except.ok none

/-- C4 witness: on a concrete two-call response, the appended turns, the
per-call entries (including normalization of the `None` result) and the
dispatch trace. -/
theorem claim_C4_witness :
    handleToolExecution wTwoToolResp [⟨"user", MessageContent.textC "Find Python info"⟩]
        wMixedTool =
      ([⟨"user", MessageContent.textC "Find Python info"⟩,
        ⟨"assistant", MessageContent.blocksC wTwoToolResp.content⟩,
        ⟨"user", MessageContent.resultsC ((toolUses wTwoToolResp.content).map fun t =>
          ⟨"tool_result", t.1, resultContent (wMixedTool t.2.1 t.2.2)⟩)⟩],
       (toolUses wTwoToolResp.content).all fun t => execOk (wMixedTool t.2.1 t.2.2)) ∧
    (toolLoop wMixedTool wTwoToolResp.content).2.2 =
      [("search_tool", [("query", "Python")]), ("outline_tool", [("course_name", "Python")])] := by
  constructor
  · exact claim_C4.1 wMixedTool wTwoToolResp [⟨"user", MessageContent.textC "Find Python info"⟩]
      (by decide)
  · rw [claim_C4.2.1 wMixedTool wTwoToolResp.content]
    decide

/-! ### Claim C5: individual tool exceptions -/

/-- C5: when some requested tool raises during round 1, the exception is
caught: every requested call (including siblings of the failing one) is
dispatched exactly once, each failing call becomes a tool-result entry whose
content describes the failure, and `generate_response` returns the fixed
apology string after exactly one model call. -/
theorem claim_C5 (api : Nat → Except String ModelResponse) (q : String)
    (tools : Option (List String)) (f : ToolExec) (r0 : ModelResponse)
    (h0 : api 0 = Except.ok r0) (hs0 : r0.stop_reason = "tool_use")
    (hfail : ∃ t ∈ toolUses r0.content, execOk (f t.2.1 t.2.2) = false) :
    (generate_response api q tools (some f)).result =
        Except.ok "I encountered an issue while searching for information." ∧
    (generate_response api q tools (some f)).calls.length = 1 ∧
    (generate_response api q tools (some f)).toolCalls =
      ((toolUses r0.content).map fun t => t.2) ∧
    (toolLoop f r0.content).1 = ((toolUses r0.content).map fun t =>
      ⟨"tool_result", t.1, resultContent (f t.2.1 t.2.2)⟩) := by
  have hflag : (toolLoop f r0.content).2.1 = false := by
    rw [toolLoop_spec]
    obtain ⟨t, ht, hbad⟩ := hfail
    simp only []
    rw [List.all_eq_false]
    exact ⟨t, ht, by simp [hbad]⟩
  unfold generate_response
  rw [genLoop_tool_failure api f (toolsTruthy tools) _ 1 0 r0 h0 hs0 (by decide) hflag]
  refine ⟨rfl, rfl, ?_, ?_⟩
  · rw [toolLoop_spec]
  · rw [toolLoop_spec]

/-- A tool manager that always raises. -/
def wFailTool : ToolExec := fun _ _ => Except.error "Tool failed"

/-- C5 witness: one tool-requesting response with one call and a raising
tool manager: the apology string, one model call, one dispatch, and a
failure-describing entry. -/
theorem claim_C5_witness :
    (generate_response wApiFail1 "Search for something" (some ["search_tool"])
        (some wFailTool)).result =
      Except.ok "I encountered an issue while searching for information." ∧
    (generate_response wApiFail1 "Search for something" (some ["search_tool"])
        (some wFailTool)).calls.length = 1 ∧
    (generate_response wApiFail1 "Search for something" (some ["search_tool"])
        (some wFailTool)).toolCalls =
      [("search_course_content", [("query", "python")])] ∧
    (toolLoop wFailTool [ContentBlock.toolUseBlock "id0" "search_course_content"
        [("query", "python")]]).1 =
      [⟨"tool_result", "id0", "Tool execution failed: Tool failed"⟩] := by
  have h := claim_C5 wApiFail1 "Search for something" (some ["search_tool"]) wFailTool
    ⟨"tool_use", [ContentBlock.toolUseBlock "id0" "search_course_content"
      [("query", "python")]]⟩
    rfl rfl ⟨("id0", "search_course_content", [("query", "python")]), by decide, by decide⟩
  exact ⟨h.1, h.2.1, h.2.2.1, h.2.2.2⟩

/-! ### Claim C10: the helper does not mutate its input list -/

/-- A store of Python list objects, making reference semantics explicit: a
reference is an index into the store; `next` is the allocation counter (all
live references are below it). -/
structure ListStore where
  store : Nat → List Message
  next : Nat

/-- In-place update of the list object behind reference `r` (Python
`list.append` writes through the reference). -/
def ListStore.write (h : ListStore) (r : Nat) (v : List Message) : ListStore :=
  ⟨fun i => if i = r then v else h.store i, h.next⟩

/-- Allocation of a fresh list object (Python `list.copy()` returns a new
object). -/
def ListStore.alloc (h : ListStore) (v : List Message) : ListStore × Nat :=
  (⟨fun i => if i = h.next then v else h.store i, h.next + 1⟩, h.next)

/-- The statements of `_handle_tool_execution` with Python reference
semantics explicit: `messages = current_messages.copy()` allocates a new
object holding the same value; the two `messages.append(...)` statements
write through the `messages` reference only; `current_messages` is never
written. -/
def handleToolExecutionRef (initial_response : ModelResponse) (h : ListStore)
    (current_messages : Nat) (tm : ToolExec) : ListStore × Nat × Bool :=
  let (h1, messages) := h.alloc (h.store current_messages)
  let h2 := h1.write messages (h1.store messages ++
    [⟨"assistant", MessageContent.blocksC initial_response.content⟩])
  let (tool_results, execution_success, _) := toolLoop tm initial_response.content
  let h3 :=
    if tool_results.isEmpty then h2
    else h2.write messages (h2.store messages ++
      [⟨"user", MessageContent.resultsC tool_results⟩])
  (h3, messages, execution_success)

/-- C10: `_handle_tool_execution` never mutates the list passed as
`current_messages` (nor any other existing list object): it works on a fresh
copy.  The fresh object it returns agrees with the pure embedding
`handleToolExecution`; with at least one tool-use block it is the input value
extended with exactly the assistant tool-request turn and one user
tool-results turn, and with zero tool-use blocks with the assistant turn
only. -/
theorem claim_C10 (resp : ModelResponse) (h : ListStore) (cur : Nat) (tm : ToolExec)
    (hcur : cur < h.next) :
    (∀ i, i < h.next → (handleToolExecutionRef resp h cur tm).1.store i = h.store i) ∧
    (handleToolExecutionRef resp h cur tm).1.store cur = h.store cur ∧
    (handleToolExecutionRef resp h cur tm).1.store (handleToolExecutionRef resp h cur tm).2.1 =
      (handleToolExecution resp (h.store cur) tm).1 ∧
    (handleToolExecutionRef resp h cur tm).2.2 = (handleToolExecution resp (h.store cur) tm).2 ∧
    (toolUses resp.content ≠ [] →
      (handleToolExecutionRef resp h cur tm).1.store (handleToolExecutionRef resp h cur tm).2.1 =
        h.store cur ++ [⟨"assistant", MessageContent.blocksC resp.content⟩,
          ⟨"user", MessageContent.resultsC ((toolUses resp.content).map fun t =>
            ⟨"tool_result", t.1, resultContent (tm t.2.1 t.2.2)⟩)⟩]) ∧
    (toolUses resp.content = [] →
      (handleToolExecutionRef resp h cur tm).1.store (handleToolExecutionRef resp h cur tm).2.1 =
        h.store cur ++ [⟨"assistant", MessageContent.blocksC resp.content⟩]) := by
  have hne : cur ≠ h.next := Nat.ne_of_lt hcur
  have href : handleToolExecutionRef resp h cur tm =
      (⟨fun i => if i = h.next then (handleToolExecution resp (h.store cur) tm).1
          else h.store i, h.next + 1⟩,
       h.next, (handleToolExecution resp (h.store cur) tm).2) := by
    unfold handleToolExecutionRef handleToolExecution ListStore.alloc ListStore.write
    rw [toolLoop_spec]
    by_cases hempty : toolUses resp.content = []
    · simp [hempty]
      funext i
      by_cases hi : i = h.next <;> simp [hi]
    · have hne2 : ((toolUses resp.content).map fun t =>
          (⟨"tool_result", t.1, resultContent (tm t.2.1 t.2.2)⟩ : ToolResultEntry)) ≠ [] := by
        simpa using hempty
      simp only [List.isEmpty_eq_true, hne2, if_neg, ite_false]
      refine Prod.ext ?_ rfl
      simp only []
      congr 1
      funext i
      by_cases hi : i = h.next <;> simp [hi]
  rw [href]
  rw [handleToolExecution_spec]
  refine ⟨?_, ?_, ?_, rfl, ?_, ?_⟩
  · intro i hi
    simp [Nat.ne_of_lt hi]
  · simp [hne]
  · simp
  · intro hneU
    simp [hneU]
  · intro hemp
    simp [hemp]

/-- Store used by the C10 witness: one allocated list holding the user
query. -/
def wStore : ListStore := ⟨fun _ => [⟨"user", MessageContent.textC "Find Python info"⟩], 1⟩

/-- C10 witness: on the concrete two-call response, the input list object is
unchanged and the fresh object is the input value plus exactly two turns. -/
theorem claim_C10_witness :
    (handleToolExecutionRef wTwoToolResp wStore 0 wMixedTool).1.store 0 = wStore.store 0 ∧
    (handleToolExecutionRef wTwoToolResp wStore 0 wMixedTool).1.store
        (handleToolExecutionRef wTwoToolResp wStore 0 wMixedTool).2.1 =
      wStore.store 0 ++ [⟨"assistant", MessageContent.blocksC wTwoToolResp.content⟩,
        ⟨"user", MessageContent.resultsC ((toolUses wTwoToolResp.content).map fun t =>
          ⟨"tool_result", t.1, resultContent (wMixedTool t.2.1 t.2.2)⟩)⟩] := by
  have h := claim_C10 wTwoToolResp wStore 0 wMixedTool (by decide)
  exact ⟨h.2.1, h.2.2.2.2.1 (by decide)⟩

/-! ### Retrieval engine (spec-modelled)

The retrieval engine source (`backend/vector_store.py`) is not among the
sources available here — only its tests and the specification describe it —
so it is modelled from the specification below. -/

/-- Modelled from the spec: missing `vector_store.py`.  A clause of a built
metadata filter: an equality constraint on the chunk's course title or
lesson number. -/
inductive FilterClause where
  | course_title (t : String)
  | lesson_number (n : Int)
  deriving Repr, DecidableEq

/-- Modelled from the spec: missing `vector_store.py`.  A built filter is
either a single equality clause or a logical AND of clauses. -/
inductive ChromaWhere where
  | clause (c : FilterClause)
  | andW (cs : List FilterClause)
  deriving Repr, DecidableEq

/-- Modelled from the spec: missing `VectorStore._build_filter`.  "A compound
filter is built from the resolved course title and/or lesson number: no
constraint → no filter; one constraint → single equality filter; both
constraints → logical AND of both equality filters", with the course clause
first. -/
def build_filter : Option String → Option Int → Option ChromaWhere
  | none, none => none
  | some t, none => some (ChromaWhere.clause (FilterClause.course_title t))
  | none, some n => some (ChromaWhere.clause (FilterClause.lesson_number n))
  | some t, some n =>
    some (ChromaWhere.andW [FilterClause.course_title t, FilterClause.lesson_number n])

/-- Modelled from the spec: a content-chunk record of the content
collection — text, owning course title, nullable lesson number. -/
structure Chunk where
  content : String
  course_title : String
  lesson_number : Option Int
  deriving Repr, DecidableEq

/-- Whether a chunk satisfies one equality clause. -/
def FilterClause.holdsFor : FilterClause → Chunk → Bool
  | FilterClause.course_title t, c => c.course_title = t
  | FilterClause.lesson_number n, c => c.lesson_number = some n

/-- Whether a chunk passes a built filter (no filter passes everything; an
AND requires every clause). -/
def matchesWhere : Option ChromaWhere → Chunk → Bool
  | none, _ => true
  | some (ChromaWhere.clause cl), c => cl.holdsFor c
  | some (ChromaWhere.andW cls), c => cls.all fun cl => cl.holdsFor c

/-- Modelled from the spec: the Search Result Envelope — parallel documents,
metadata `(course title, lesson number)` and distances, plus an optional
error. -/
structure SearchResults where
  documents : List String
  metadata : List (String × Option Int)
  distances : List Nat
  error : Option String
  deriving Repr, DecidableEq

/-- Modelled from the spec: an empty envelope carrying an error message. -/
def SearchResults.emptyErr (msg : String) : SearchResults := ⟨[], [], [], some msg⟩

/-- Modelled from the spec: "empty" means all three sequences are empty. -/
def SearchResults.is_empty (r : SearchResults) : Bool :=
  r.documents.isEmpty && r.metadata.isEmpty && r.distances.isEmpty

/-- Modelled from the spec: the Retrieval Engine state.  `resolve_course_name`
is the fuzzy name-resolution capability (the best-match similarity query
against the course-metadata collection, returning the canonical title or
nothing); `chunks` are the indexed content chunks; `rank` is the
similarity-distance oracle of the underlying index (lower = more similar);
`max_results` the configured result-count cap. -/
structure VectorStore where
  resolve_course_name : String → Option String
  chunks : List Chunk
  rank : String → Chunk → Nat
  max_results : Nat

/-- Insertion into a distance-sorted list. -/
def insertByDist (x : Chunk × Nat) : List (Chunk × Nat) → List (Chunk × Nat)
  | [] => [x]
  | y :: ys => if x.2 ≤ y.2 then x :: y :: ys else y :: insertByDist x ys

/-- Insertion sort by ascending distance. -/
def sortByDist : List (Chunk × Nat) → List (Chunk × Nat)
  | [] => []
  | x :: xs => insertByDist x (sortByDist xs)

/-- Modelled from the spec: the index collection call
`query(text, result_count, filter)` — up to `result_count` matches passing
the filter, ordered by ascending distance. -/
def queryCollection (vs : VectorStore) (q : String) (n : Nat) (w : Option ChromaWhere) :
    List (Chunk × Nat) :=
  (sortByDist ((vs.chunks.filter (matchesWhere w)).map fun c => (c, vs.rank q c))).take n

/-- Modelled from the spec: the content-search step of `VectorStore.search`
after name resolution: build the filter from the canonical title and lesson
number, query the content collection capped at `max_results`, wrap the
parallel lists in an envelope.  The second component records the issued
content-collection queries `(text, result_count, filter)`. -/
def searchContent (vs : VectorStore) (q : String) (ct : Option String) (ln : Option Int) :
    SearchResults × List (String × Nat × Option ChromaWhere) :=
  let w := build_filter ct ln
  let hits := queryCollection vs q vs.max_results w
  (⟨hits.map fun p => p.1.content, hits.map fun p => (p.1.course_title, p.1.lesson_number),
    hits.map fun p => p.2, none⟩,
   [(q, vs.max_results, w)])

/-- Modelled from the spec: `VectorStore.search`.  A supplied course name is
first resolved to a canonical title; when resolution fails the call returns
an error envelope and performs no content search; otherwise (and when no
course name was supplied) the content search runs with the filter built from
the canonical title and/or lesson number. -/
def VectorStore.search (vs : VectorStore) (q : String) (course_name : Option String)
    (lesson_number : Option Int) : SearchResults × List (String × Nat × Option ChromaWhere) :=
  match course_name with
  | some cn =>
    match vs.resolve_course_name cn with
    | none => (SearchResults.emptyErr ("No course found matching '" ++ cn ++ "'"), [])
    | some title => searchContent vs q (some title) lesson_number
  | none => searchContent vs q none lesson_number

/-! ### Claims C6, C7, C8 about the retrieval engine -/

/-- C6: filter construction — no constraints give no filter; one constraint
gives a single equality clause; both give an AND of exactly the two equality
clauses with the course clause first; and the filter a search issues is
built from the canonical resolved title, never the raw user-supplied
string. -/
theorem claim_C6 :
    build_filter none none = none ∧
    (∀ t, build_filter (some t) none =
      some (ChromaWhere.clause (FilterClause.course_title t))) ∧
    (∀ n, build_filter none (some n) =
      some (ChromaWhere.clause (FilterClause.lesson_number n))) ∧
    (∀ t n, build_filter (some t) (some n) =
      some (ChromaWhere.andW [FilterClause.course_title t, FilterClause.lesson_number n])) ∧
    (∀ (vs : VectorStore) (q cn : String) (ln : Option Int) (title : String),
      vs.resolve_course_name cn = some title →
      (vs.search q (some cn) ln).2 = [(q, vs.max_results, build_filter (some title) ln)]) := by
  refine ⟨rfl, fun t => rfl, fun n => rfl, fun t n => rfl, ?_⟩
  intro vs q cn ln title hres
  unfold VectorStore.search
  dsimp only
  rw [hres]
  rfl

/-- Resolver of the concrete witness store: the partial reference "Python"
resolves to the canonical title "Python 101"; everything else is
unresolved. -/
def wResolver : String → Option String := fun cn =>
  if cn = "Python" then some "Python 101" else none

/-- Concrete witness store with two indexed chunks. -/
def wVS : VectorStore :=
  ⟨wResolver,
   [⟨"Python variables and functions", "Python 101", some 1⟩,
    ⟨"Classes in Python", "Python 101", some 2⟩],
   fun _ c => c.content.length, 3⟩

/-- C6 witness: with the raw reference "Python" resolving to "Python 101",
the issued query's filter is built from the canonical title. -/
theorem claim_C6_witness :
    build_filter none none = none ∧
    build_filter (some "Python 101") none =
      some (ChromaWhere.clause (FilterClause.course_title "Python 101")) ∧
    build_filter none (some 2) =
      some (ChromaWhere.clause (FilterClause.lesson_number 2)) ∧
    build_filter (some "Python 101") (some 2) =
      some (ChromaWhere.andW
        [FilterClause.course_title "Python 101", FilterClause.lesson_number 2]) ∧
    (wVS.search "variables" (some "Python") (some 2)).2 =
      [("variables", 3, build_filter (some "Python 101") (some 2))] := by
  exact ⟨claim_C6.1, claim_C6.2.1 "Python 101", claim_C6.2.2.1 2,
    claim_C6.2.2.2.1 "Python 101" 2,
    claim_C6.2.2.2.2 wVS "variables" "Python" (some 2) "Python 101" rfl⟩

/-- C7: an unresolvable course name yields the error envelope
`No course found matching '<name>'` with empty documents, metadata and
distances, and zero queries against the content collection. -/
theorem claim_C7 (vs : VectorStore) (q cn : String) (ln : Option Int)
    (hres : vs.resolve_course_name cn = none) :
    (vs.search q (some cn) ln).1 =
      ⟨[], [], [], some ("No course found matching '" ++ cn ++ "'")⟩ ∧
    (vs.search q (some cn) ln).2 = [] := by
  unfold VectorStore.search
  dsimp only
  rw [hres]
  exact ⟨rfl, rfl⟩

/-- C7 witness: searching the concrete store for the unresolvable name
"Nonexistent". -/
theorem claim_C7_witness :
    (wVS.search "test" (some "Nonexistent") none).1 =
      ⟨[], [], [], some "No course found matching 'Nonexistent'"⟩ ∧
    (wVS.search "test" (some "Nonexistent") none).2 = [] := by
  have h := claim_C7 wVS "test" "Nonexistent" none rfl
  refine ⟨?_, h.2⟩
  rw [h.1]
  decide

/-- C8: with `max_results` configured as zero, every content search returns
zero documents, whatever the index contains. -/
theorem claim_C8 (vs : VectorStore) (q : String) (cn : Option String) (ln : Option Int)
    (hmr : vs.max_results = 0) :
    ((vs.search q cn ln).1.documents = [] ∧ (vs.search q cn ln).1.is_empty = true) := by
  have hsc : ∀ ct, (searchContent vs q ct ln).1.documents = [] ∧
      (searchContent vs q ct ln).1.is_empty = true := by
    intro ct
    unfold searchContent queryCollection
    rw [hmr]
    simp [SearchResults.is_empty]
  unfold VectorStore.search
  cases cn with
  | none => exact hsc none
  | some c =>
    dsimp only
    cases hres : vs.resolve_course_name c with
    | none => exact ⟨rfl, rfl⟩
    | some title => exact hsc (some title)

/-- The witness store with the degenerate configuration `max_results = 0`:
same chunks as `wVS`, so matching content exists. -/
def wVS0 : VectorStore := ⟨wResolver, wVS.chunks, fun _ c => c.content.length, 0⟩

/-- C8 witness: the degenerate store holds two chunks that pass the
unconstrained filter, yet the search returns zero documents. -/
theorem claim_C8_witness :
    (wVS0.chunks.filter (matchesWhere none)).length = 2 ∧
    (wVS0.search "computer use" none none).1.documents = [] ∧
    (wVS0.search "computer use" none none).1.is_empty = true := by
  have h := claim_C8 wVS0 "computer use" none none rfl
  exact ⟨rfl, h.1, h.2⟩

/-! ### Tool registry (spec-modelled)

The tool registry source (`backend/search_tools.py`) is likewise not among
the available sources, so it is modelled from the specification. -/

/-- Modelled from the spec: missing `search_tools.py` tool schema — the
declared name (registration must fail when it is absent) plus the
natural-language description. -/
structure ToolDef where
  name : Option String
  description : String
  deriving Repr, DecidableEq

/-- Modelled from the spec: missing `search_tools.py` tool object — its
machine-readable definition and its `execute` behaviour on keyword
arguments. -/
structure RegisteredTool where
  get_tool_definition : ToolDef
  execute : List (String × String) → String

/-- Modelled from the spec: missing `ToolManager` — tools indexed by name,
kept in registration order. -/
structure ToolManager where
  tools : List (String × RegisteredTool)

/-- Dict-style insertion: an existing key is overwritten in place, a new key
is appended. -/
def dictInsert (l : List (String × RegisteredTool)) (n : String) (t : RegisteredTool) :
    List (String × RegisteredTool) :=
  match l with
  | [] => [(n, t)]
  | (k, v) :: rest => if k = n then (k, t) :: rest else (k, v) :: dictInsert rest n t

/-- Modelled from the spec: `ToolManager.register_tool` indexes the tool by
the name declared in its definition; a definition without a name is a
configuration error. -/
def ToolManager.register_tool (m : ToolManager) (t : RegisteredTool) :
    Except String ToolManager :=
  match t.get_tool_definition.name with
  | none => Except.error "Tool must have a 'name' in its definition"
  | some n => Except.ok ⟨dictInsert m.tools n t⟩

/-- Modelled from the spec: `ToolManager.get_tool_definitions` returns every
registered tool's schema in registration order. -/
def ToolManager.get_tool_definitions (m : ToolManager) : List ToolDef :=
  m.tools.map fun p => p.2.get_tool_definition

/-- Modelled from the spec: `ToolManager.execute_tool` dispatches by name;
an unknown name yields the text `Tool '<name>' not found` instead of an
exception. -/
def ToolManager.execute_tool (m : ToolManager) (name : String)
    (kwargs : List (String × String)) : String :=
  match m.tools.lookup name with
  | none => "Tool '" ++ name ++ "' not found"
  | some t => t.execute kwargs

/-- C9: registering a single tool under the name declared in its schema and
asking for definitions returns exactly one definition whose name is the
registration key, and `execute_tool` dispatches that key to the tool. -/
theorem claim_C9 (t : RegisteredTool) (n : String) (kwargs : List (String × String))
    (hname : t.get_tool_definition.name = some n) :
    ToolManager.register_tool ⟨[]⟩ t = Except.ok ⟨[(n, t)]⟩ ∧
    ToolManager.get_tool_definitions ⟨[(n, t)]⟩ = [t.get_tool_definition] ∧
    (ToolManager.get_tool_definitions ⟨[(n, t)]⟩).length = 1 ∧
    (ToolManager.get_tool_definitions ⟨[(n, t)]⟩).head?.bind ToolDef.name = some n ∧
    ToolManager.execute_tool ⟨[(n, t)]⟩ n kwargs = t.execute kwargs := by
  refine ⟨?_, rfl, rfl, ?_, ?_⟩
  · unfold ToolManager.register_tool
    rw [hname]
    rfl
  · simp [ToolManager.get_tool_definitions, hname]
  · simp [ToolManager.execute_tool, List.lookup]

/-- Tool used by the C9 witness. -/
def wTool : RegisteredTool := ⟨⟨some "test_tool", "A test tool"⟩, fun _ => "test result"⟩

/-- C9 witness: the registration round-trip on a concrete tool. -/
theorem claim_C9_witness :
    ToolManager.register_tool ⟨[]⟩ wTool = Except.ok ⟨[("test_tool", wTool)]⟩ ∧
    ToolManager.get_tool_definitions ⟨[("test_tool", wTool)]⟩ = [wTool.get_tool_definition] ∧
    (ToolManager.get_tool_definitions ⟨[("test_tool", wTool)]⟩).head?.bind ToolDef.name =
      some "test_tool" ∧
    ToolManager.execute_tool ⟨[("test_tool", wTool)]⟩ "test_tool" [("param", "value")] =
      wTool.execute [("param", "value")] := by
  have h := claim_C9 wTool "test_tool" [("param", "value")] rfl
  exact ⟨h.1, h.2.1, h.2.2.2.1, h.2.2.2.2⟩

end RagChatbot
